import Mathlib

/-!
Verification of the `cardio_backend/app.py` prediction service.

The service is a single-file HTTP wrapper: it loads an opaque pre-trained
classifier (`model`) and feature scaler (`scaler`) at startup and exposes two
routes.  `GET /` returns a fixed acknowledgement message.  `POST /predict`
parses the request JSON, extracts twelve named numeric fields in a fixed
order, assembles them into a one-row DataFrame with those twelve column
names, scales it, runs the classifier, and returns
`{"prediction": int(model.predict(X)[0]),
  "probability": round(float(model.predict_proba(X)[0][1]), 4)}`
with status 200; every exception raised inside the handler is caught by the
single top-level `try`/`except` and converted to `{"error": str(e)}` with
status 400.

The embedding below models JSON values, the two opaque artifacts (as records
of fallible functions, since their behaviour lives in external pickle files),
and the two route handlers as total Lean functions.  Python exceptions are
modelled by `Except String`; `request.get_json()` is modelled by handing the
handler the parse result `Except String Json` (a parse failure raises inside
the `try` block, i.e. arrives as `Except.error`).
-/

namespace CardioBackend

/-- JSON values, as produced by Flask's `request.get_json()`.  Numbers are
modelled as rationals; an object is the parsed Python dict, represented as a
key-value list (the parser guarantees unique keys, so first-match lookup
below coincides with Python dict lookup). -/
inductive Json where
  | null : Json
  | bool (b : Bool) : Json
  | num (q : ℚ) : Json
  | str (s : String) : Json
  | arr (xs : List Json) : Json
  | obj (kvs : List (String × Json)) : Json

/-- Lookup of a key in the key-value list of a parsed JSON object. -/
def lookupKey : List (String × Json) → String → Option Json
  | [], _ => none
  | (k0, v) :: rest, k => if k0 = k then some v else lookupKey rest k

/-- Python subscript `data[k]` on a parsed JSON value: key lookup on a dict
(raising `KeyError` when the key is absent), a `TypeError` on every other
value. -/
def Json.index : Json → String → Except String Json
  | Json.obj kvs, k =>
    match lookupKey kvs k with
    | some v => Except.ok v
    | none => Except.error ("KeyError: " ++ k)
  | Json.null, _ => Except.error "TypeError: NoneType object is not subscriptable"
  | Json.bool _, _ => Except.error "TypeError: bool object is not subscriptable"
  | Json.num _, _ => Except.error "TypeError: number object is not subscriptable"
  | Json.str _, _ => Except.error "TypeError: string indices must be integers"
  | Json.arr _, _ => Except.error "TypeError: list indices must be integers"

/-- Python subscript `xs[n]` on a list, raising `IndexError` out of range. -/
def pyGet {α : Type} (l : List α) (n : Nat) : Except String α :=
  match l[n]? with
  | some a => Except.ok a
  | none => Except.error "IndexError: index out of range"

/-- Python `int(q)`: truncation of a numeric value toward zero. -/
def pyInt (q : ℚ) : ℤ := q.num.tdiv q.den

/-- Round-half-to-even to the nearest integer, the tie-breaking rule of
Python's `round`. -/
def rhe (q : ℚ) : ℤ :=
  if q - ⌊q⌋ < 1 / 2 then ⌊q⌋
  else if 1 / 2 < q - ⌊q⌋ then ⌊q⌋ + 1
  else if 2 ∣ ⌊q⌋ then ⌊q⌋ else ⌊q⌋ + 1

/-- Python `round(q, 4)`: round to four decimal places, ties to even. -/
def round4 (q : ℚ) : ℚ := (rhe (q * 10000) : ℚ) / 10000

/-- The one-row table `pd.DataFrame([features], columns=cols)` handed to the
scaler: named columns plus rows of raw JSON values. -/
structure DataFrame where
  columns : List String
  rows : List (List Json)

/-- The scaler artifact `scaler.pkl`: opaque, immutable, pre-fitted feature
transformer.  `transform` maps a named table to a scaled numeric matrix and
may fail (e.g. on non-numeric entries or a column mismatch). -/
structure Scaler where
  transform : DataFrame → Except String (List (List ℚ))

/-- The model artifact `best_model.pkl`: opaque, immutable, pre-fitted
classifier with `predict` (row of class labels) and `predict_proba` (matrix
of per-class probabilities), either of which may fail. -/
structure Model where
  predict : List (List ℚ) → Except String (List ℚ)
  predict_proba : List (List ℚ) → Except String (List (List ℚ))

/-- An HTTP response: status code plus JSON body (`jsonify(...)`). -/
structure Response where
  status : Nat
  body : Json

/-- The twelve feature keys, in the order the handler subscripts `data`
(lines 26-37 of `app.py`). -/
def FEATURE_KEYS : List String :=
  ["age", "anaemia", "creatinine_phosphokinase", "diabetes",
   "ejection_fraction", "high_blood_pressure", "platelets",
   "serum_creatinine", "serum_sodium", "sex", "smoking", "time"]

/-- The column names of the DataFrame (lines 41-54 of `app.py`); the same
twelve names, in the same order, as `FEATURE_KEYS`. -/
def cols : List String :=
  ["age", "anaemia", "creatinine_phosphokinase", "diabetes",
   "ejection_fraction", "high_blood_pressure", "platelets",
   "serum_creatinine", "serum_sodium", "sex", "smoking", "time"]

/-- The Python list literal `[data["age"], ..., data["time"]]`: subscripts
evaluated left to right over the key list, the first raised error aborting
the whole expression. -/
def getFeatures (data : Json) : List String → Except String (List Json)
  | [] => Except.ok []
  | k :: ks => do
    let v ← Json.index data k
    let vs ← getFeatures data ks
    Except.ok (v :: vs)

/-- The body of the `try` block of the `/predict` handler (lines 21-68 of
`app.py`): parse JSON, extract the twelve features in order, build the
one-row DataFrame, scale, predict, and serialize the success response. -/
def predictCore (scaler : Scaler) (model : Model) (getJson : Except String Json) :
    Except String Response := do
  let data ← getJson
  let features ← getFeatures data FEATURE_KEYS
  let df : DataFrame := { columns := cols, rows := [features] }
  let scaled_features ← scaler.transform df
  let preds ← model.predict scaled_features
  let prediction ← pyGet preds 0
  let probas ← model.predict_proba scaled_features
  let proba_row ← pyGet probas 0
  let probability ← pyGet proba_row 1
  Except.ok
    { status := 200,
      body := Json.obj
        [("prediction", Json.num (pyInt prediction)),
         ("probability", Json.num (round4 probability))] }

/-- The `/predict` route (lines 18-71 of `app.py`): the `try` body, with any
raised error caught and converted to `jsonify({"error": str(e)}), 400`. -/
def predict (scaler : Scaler) (model : Model) (getJson : Except String Json) :
    Response :=
  match predictCore scaler model getJson with
  | Except.ok r => r
  | Except.error e =>
      { status := 400, body := Json.obj [("error", Json.str e)] }

/-- The `GET /` route (lines 14-16 of `app.py`).  The handler takes no
arguments and never consults the request, so it is modelled as a function
that ignores the query parameters and body of the incoming request. -/
def home (_query : List (String × String)) (_reqBody : Option String) : Response :=
  { status := 200,
    body := Json.obj
      [("message", Json.str "Heart Disease Prediction API is running!")] }

/-- Concrete request object used by the witnesses: the concrete scenario of
the spec. -/
def testKvs : List (String × Json) :=
  [("age", Json.num 75), ("anaemia", Json.num 0),
   ("creatinine_phosphokinase", Json.num 582), ("diabetes", Json.num 0),
   ("ejection_fraction", Json.num 20), ("high_blood_pressure", Json.num 1),
   ("platelets", Json.num 265000), ("serum_creatinine", Json.num (19 / 10)),
   ("serum_sodium", Json.num 130), ("sex", Json.num 1),
   ("smoking", Json.num 0), ("time", Json.num 4)]

/-- The numeric field values of `testKvs`, as a function of the key. -/
def testVal (k : String) : ℚ :=
  if k = "age" then 75 else if k = "anaemia" then 0
  else if k = "creatinine_phosphokinase" then 582 else if k = "diabetes" then 0
  else if k = "ejection_fraction" then 20 else if k = "high_blood_pressure" then 1
  else if k = "platelets" then 265000 else if k = "serum_creatinine" then 19 / 10
  else if k = "serum_sodium" then 130 else if k = "sex" then 1
  else if k = "smoking" then 0 else if k = "time" then 4 else 0

/-- `testKvs` with the `age` field removed (the spec's missing-field
scenario). -/
def testKvsNoAge : List (String × Json) :=
  [("anaemia", Json.num 0),
   ("creatinine_phosphokinase", Json.num 582), ("diabetes", Json.num 0),
   ("ejection_fraction", Json.num 20), ("high_blood_pressure", Json.num 1),
   ("platelets", Json.num 265000), ("serum_creatinine", Json.num (19 / 10)),
   ("serum_sodium", Json.num 130), ("sex", Json.num 1),
   ("smoking", Json.num 0), ("time", Json.num 4)]

/-- `testKvs` with its first two fields listed in the opposite order. -/
def testKvsSwapped : List (String × Json) :=
  [("anaemia", Json.num 0), ("age", Json.num 75),
   ("creatinine_phosphokinase", Json.num 582), ("diabetes", Json.num 0),
   ("ejection_fraction", Json.num 20), ("high_blood_pressure", Json.num 1),
   ("platelets", Json.num 265000), ("serum_creatinine", Json.num (19 / 10)),
   ("serum_sodium", Json.num 130), ("sex", Json.num 1),
   ("smoking", Json.num 0), ("time", Json.num 4)]

/-- `testKvs` with an additional unrelated key appended. -/
def testKvsExtra : List (String × Json) :=
  testKvs ++ [("extra_field", Json.str "ignored")]

/-- A concrete scaler artifact for the witnesses. -/
def testScaler : Scaler :=
  { transform := fun _ => Except.ok [[0, 0, 0, 0, 0, 0, 0, 0, 0, 0, 0, 0]] }

/-- A concrete model artifact for the witnesses: always predicts class 1
with probability 1/2. -/
def testModel : Model :=
  { predict := fun _ => Except.ok [1],
    predict_proba := fun _ => Except.ok [[1 / 2, 1 / 2]] }

/-! ## Helper lemmas -/

/-- A string with a nonempty left part of an append is nonempty. -/
theorem app_ne_empty (a b : String) (h : a ≠ "") : a ++ b ≠ "" := by
  intro hc
  apply h
  have hlen := congrArg String.length hc
  simp [String.length_append] at hlen
  have h0 : a.length = 0 := by omega
  cases a with
  | mk data =>
    cases data with
    | nil => rfl
    | cons c cs => simp [String.length] at h0

/-- When every key of `L` is bound in the object, the feature extraction
succeeds and returns the bound values in the order of `L`. -/
theorem getFeatures_ok_of_lookups {kvs : List (String × Json)} {f : String → Json}
    (L : List String) (h : ∀ k ∈ L, lookupKey kvs k = some (f k)) :
    getFeatures (Json.obj kvs) L = Except.ok (L.map f) := by
  induction L with
  | nil => rfl
  | cons k ks ih =>
    have hk : lookupKey kvs k = some (f k) := h k (by simp)
    have ht := ih (fun a ha => h a (by simp [ha]))
    simp [getFeatures, Json.index, hk, ht, bind, Except.bind]

/-- A failing feature extraction fails with the error of one of the
subscript expressions. -/
theorem getFeatures_error_mem {d : Json} {L : List String} {e : String}
    (h : getFeatures d L = Except.error e) :
    ∃ k ∈ L, Json.index d k = Except.error e := by
  induction L with
  | nil => simp [getFeatures] at h
  | cons k ks ih =>
    rcases hk : Json.index d k with e0 | v
    · simp [getFeatures, hk, bind, Except.bind] at h
      exact ⟨k, by simp, by rw [hk, h]⟩
    · rcases ht : getFeatures d ks with e1 | vs
      · simp [getFeatures, hk, ht, bind, Except.bind] at h
        obtain ⟨k1, hk1, hk2⟩ := ih (ht.trans (by rw [h]))
        exact ⟨k1, by simp [hk1], hk2⟩
      · simp [getFeatures, hk, ht, bind, Except.bind] at h

/-- A successful feature extraction implies every subscript succeeded. -/
theorem getFeatures_ok_forall {d : Json} {L : List String} {vs : List Json}
    (h : getFeatures d L = Except.ok vs) :
    ∀ k ∈ L, ∃ v, Json.index d k = Except.ok v := by
  induction L generalizing vs with
  | nil => simp
  | cons k ks ih =>
    rcases hk : Json.index d k with e0 | v
    · simp [getFeatures, hk, bind, Except.bind] at h
    · rcases ht : getFeatures d ks with e1 | ws
      · simp [getFeatures, hk, ht, bind, Except.bind] at h
      · intro a ha
        rcases List.mem_cons.mp ha with rfl | ha2
        · exact ⟨v, hk⟩
        · exact ih ht a ha2

/-- Every error raised by a Python subscript has a nonempty message. -/
theorem index_error_ne_empty {d : Json} {k e : String}
    (h : Json.index d k = Except.error e) : e ≠ "" := by
  cases d with
  | obj kvs =>
    rcases hl : lookupKey kvs k with _ | v
    · simp [Json.index, hl] at h
      rw [← h]
      exact app_ne_empty _ _ (by decide)
    · simp [Json.index, hl] at h
  | null =>
    simp [Json.index] at h
    rw [← h]; decide
  | bool b0 =>
    simp [Json.index] at h
    rw [← h]; decide
  | num q0 =>
    simp [Json.index] at h
    rw [← h]; decide
  | str s0 =>
    simp [Json.index] at h
    rw [← h]; decide
  | arr xs =>
    simp [Json.index] at h
    rw [← h]; decide

/-- The round-half-to-even integer of `q` is at least `⌊q⌋`. -/
theorem rhe_lower {q : ℚ} : ⌊q⌋ ≤ rhe q := by
  unfold rhe
  split
  · exact le_refl _
  · split
    · omega
    · split <;> omega

/-- The round-half-to-even integer of `q` is at most any integer bound on
`q` itself. -/
theorem rhe_upper_of {q : ℚ} {n : ℤ} (h : q ≤ n) : rhe q ≤ n := by
  have hfl : ⌊q⌋ ≤ n := by
    have := Int.floor_le_floor h
    simpa using this
  rcases eq_or_lt_of_le hfl with heq | hlt
  · have hq : q - ⌊q⌋ ≤ 0 := by
      rw [heq]
      have hqn : q ≤ (n : ℚ) := h
      linarith
    unfold rhe
    split
    · omega
    · rename_i hc
      exfalso
      apply hc
      calc q - ⌊q⌋ ≤ 0 := hq
        _ < 1 / 2 := by norm_num
  · unfold rhe
    split
    · omega
    · split <;> [omega; skip]
      split <;> omega

/-- Rounding a probability in the unit interval to four decimals stays in
the unit interval. -/
theorem round4_mem_unit {q : ℚ} (h0 : 0 ≤ q) (h1 : q ≤ 1) :
    0 ≤ round4 q ∧ round4 q ≤ 1 := by
  have hx0 : (0 : ℚ) ≤ q * 10000 := by positivity
  have hx1 : q * 10000 ≤ ((10000 : ℤ) : ℚ) := by push_cast; linarith
  have hl : (0 : ℤ) ≤ rhe (q * 10000) :=
    le_trans (Int.floor_nonneg.mpr hx0) rhe_lower
  have hu : rhe (q * 10000) ≤ 10000 := rhe_upper_of hx1
  constructor
  · apply div_nonneg _ (by norm_num)
    exact_mod_cast hl
  · unfold round4
    rw [div_le_one (by norm_num)]
    exact_mod_cast hu

/-- Success computation of the handler: with all twelve fields bound, and
scaler and model succeeding with rows long enough for the subscripts, the
response is the 200 payload built from `predict` at index 0 and
`predict_proba` at index `[0][1]`. -/
theorem predictCore_success (s : Scaler) (m : Model) {kvs : List (String × Json)}
    (f : String → Json) {X : List (List ℚ)} {ps : List ℚ} {p : ℚ}
    {rows : List (List ℚ)} {row : List ℚ} {b : ℚ}
    (hlook : ∀ k ∈ FEATURE_KEYS, lookupKey kvs k = some (f k))
    (htr : s.transform ⟨cols, [FEATURE_KEYS.map f]⟩ = Except.ok X)
    (hpred : m.predict X = Except.ok ps)
    (hp : ps[0]? = some p)
    (hproba : m.predict_proba X = Except.ok rows)
    (hrow : rows[0]? = some row)
    (hb : row[1]? = some b) :
    predict s m (Except.ok (Json.obj kvs)) =
      ⟨200, Json.obj [("prediction", Json.num (pyInt p)),
                      ("probability", Json.num (round4 b))]⟩ := by
  have hgf := getFeatures_ok_of_lookups FEATURE_KEYS hlook
  simp [predict, predictCore, bind, Except.bind, hgf, htr, hpred, hproba,
    pyGet, hp, hrow, hb]

/-- Every successful run of the try-block body produces a 200 response whose
body is exactly a prediction/probability object. -/
theorem predictCore_ok_shape {s : Scaler} {m : Model} {j : Except String Json}
    {r : Response} (h : predictCore s m j = Except.ok r) :
    ∃ p b : ℚ, r = ⟨200, Json.obj [("prediction", Json.num p),
                                   ("probability", Json.num b)]⟩ := by
  rcases j with e | d
  · simp [predictCore, bind, Except.bind] at h
  rcases h1 : getFeatures d FEATURE_KEYS with e | fs
  · simp [predictCore, bind, Except.bind, h1] at h
  rcases h2 : s.transform { columns := cols, rows := [fs] } with e | X
  · simp [predictCore, bind, Except.bind, h1, h2] at h
  rcases h3 : m.predict X with e | ps
  · simp [predictCore, bind, Except.bind, h1, h2, h3] at h
  rcases h4 : ps[0]? with _ | p
  · simp [predictCore, bind, Except.bind, h1, h2, h3, pyGet, h4] at h
  rcases h5 : m.predict_proba X with e | rows
  · simp [predictCore, bind, Except.bind, h1, h2, h3, pyGet, h4, h5] at h
  rcases h6 : rows[0]? with _ | row
  · simp [predictCore, bind, Except.bind, h1, h2, h3, pyGet, h4, h5, h6] at h
  rcases h7 : row[1]? with _ | b
  · simp [predictCore, bind, Except.bind, h1, h2, h3, pyGet, h4, h5, h6, h7] at h
  · simp [predictCore, bind, Except.bind, h1, h2, h3, pyGet, h4, h5, h6, h7] at h
    exact ⟨pyInt p, round4 b, h.symm⟩

/-- The extracted feature list depends on the object only through the
lookups of the requested keys. -/
theorem getFeatures_congr {kvs1 kvs2 : List (String × Json)} {L : List String}
    (h : ∀ k ∈ L, lookupKey kvs1 k = lookupKey kvs2 k) :
    getFeatures (Json.obj kvs1) L = getFeatures (Json.obj kvs2) L := by
  induction L with
  | nil => rfl
  | cons k ks ih =>
    have hk := h k (by simp)
    have ht := ih (fun a ha => h a (by simp [ha]))
    simp [getFeatures, Json.index, hk, ht]

/-- The handler response depends on the request object only through the
lookups of the twelve feature keys. -/
theorem predict_ext_lookup (s : Scaler) (m : Model)
    {kvs1 kvs2 : List (String × Json)}
    (h : ∀ k ∈ FEATURE_KEYS, lookupKey kvs1 k = lookupKey kvs2 k) :
    predict s m (Except.ok (Json.obj kvs1)) =
      predict s m (Except.ok (Json.obj kvs2)) := by
  have hgf := getFeatures_congr h
  simp [predict, predictCore, bind, Except.bind, hgf]

/-- Key lookup in an association list with pairwise-distinct keys is
invariant under permutation of the list. -/
theorem lookupKey_perm {l1 l2 : List (String × Json)} (h : l1.Perm l2) :
    (l1.map Prod.fst).Nodup → ∀ k, lookupKey l1 k = lookupKey l2 k := by
  induction h with
  | nil => intro _ _; rfl
  | cons x h ih =>
    rename_i t1 t2
    intro nd k
    obtain ⟨a, v⟩ := x
    have nd2 : (t1.map Prod.fst).Nodup := by
      simp at nd
      exact nd.2
    simp only [lookupKey]
    split
    · rfl
    · exact ih nd2 k
  | swap x y l =>
    intro nd k
    obtain ⟨a, v⟩ := x
    obtain ⟨b, w⟩ := y
    have hab : ¬b = a := by
      simp at nd
      exact nd.1.1
    by_cases h1 : a = k <;> by_cases h2 : b = k <;>
      simp [lookupKey, h1, h2]
    exact absurd (h2.trans h1.symm) hab
  | trans h1 h2 ih1 ih2 =>
    rename_i u1 u2 u3
    intro nd k
    have ndm : (u2.map Prod.fst).Nodup := ((h1.map Prod.fst).nodup_iff).mp nd
    exact (ih1 nd k).trans (ih2 ndm k)

/-! ## Claim theorems -/

/-- Claim C1: for every POST `/predict` request whose JSON body contains all
twelve required numeric fields, and for which the scaler transform and model
inference succeed, the response is an HTTP 200 JSON object containing
exactly the two keys `prediction` (an integer equal to 0 or 1, assuming the
model artifact is a binary classifier) and `probability` (a float in [0,1]
rounded to 4 decimals). -/
theorem predict_valid_request_ok (s : Scaler) (m : Model)
    {kvs : List (String × Json)} (fq : String → ℚ) {X : List (List ℚ)}
    {ps : List ℚ} {p : ℚ} {rows : List (List ℚ)} {row : List ℚ} {b : ℚ}
    (hlook : ∀ k ∈ FEATURE_KEYS, lookupKey kvs k = some (Json.num (fq k)))
    (htr : s.transform ⟨cols, [FEATURE_KEYS.map (fun k => Json.num (fq k))]⟩ =
      Except.ok X)
    (hpred : m.predict X = Except.ok ps)
    (hp : ps[0]? = some p)
    (hproba : m.predict_proba X = Except.ok rows)
    (hrow : rows[0]? = some row)
    (hb : row[1]? = some b)
    (hbin : p = 0 ∨ p = 1)
    (hb0 : 0 ≤ b) (hb1 : b ≤ 1) :
    predict s m (Except.ok (Json.obj kvs)) =
      ⟨200, Json.obj [("prediction", Json.num (pyInt p)),
                      ("probability", Json.num (round4 b))]⟩
    ∧ (pyInt p = 0 ∨ pyInt p = 1)
    ∧ 0 ≤ round4 b ∧ round4 b ≤ 1 := by
  refine ⟨predictCore_success s m (fun k => Json.num (fq k)) hlook htr hpred
      hp hproba hrow hb, ?_, (round4_mem_unit hb0 hb1).1, (round4_mem_unit hb0 hb1).2⟩
  rcases hbin with rfl | rfl
  · exact Or.inl (by decide)
  · exact Or.inr (by decide)

/-- Witness for C1 at the concrete scenario of the spec, with the concrete
test artifacts. -/
theorem predict_valid_request_ok_witness :
    (∀ k ∈ FEATURE_KEYS, lookupKey testKvs k = some (Json.num (testVal k)))
    ∧ (predict testScaler testModel (Except.ok (Json.obj testKvs)) =
        ⟨200, Json.obj [("prediction", Json.num (pyInt 1)),
                        ("probability", Json.num (round4 (1 / 2)))]⟩
      ∧ (pyInt 1 = 0 ∨ pyInt 1 = 1)
      ∧ 0 ≤ round4 (1 / 2) ∧ round4 (1 / 2) ≤ 1) := by
  have hlook : ∀ k ∈ FEATURE_KEYS, lookupKey testKvs k = some (Json.num (testVal k)) := by
    intro k hk
    fin_cases hk <;> rfl
  exact ⟨hlook, predict_valid_request_ok testScaler testModel testVal hlook
    rfl rfl rfl rfl rfl rfl (Or.inr rfl) (by norm_num) (by norm_num)⟩

/-- Claim C2: for every POST `/predict` request whose JSON body is missing
at least one of the twelve required fields, the handler returns HTTP 400
with a JSON body containing an `error` key holding a non-empty string, and
never returns any partial prediction. -/
theorem predict_missing_field_400 (s : Scaler) (m : Model)
    {kvs : List (String × Json)} {k0 : String}
    (hk0 : k0 ∈ FEATURE_KEYS) (hlk : lookupKey kvs k0 = none) :
    ∃ e, e ≠ "" ∧ predict s m (Except.ok (Json.obj kvs)) =
      ⟨400, Json.obj [("error", Json.str e)]⟩ := by
  rcases hgf : getFeatures (Json.obj kvs) FEATURE_KEYS with e | vs
  · refine ⟨e, ?_, ?_⟩
    · obtain ⟨k1, _, hk2⟩ := getFeatures_error_mem hgf
      exact index_error_ne_empty hk2
    · simp [predict, predictCore, bind, Except.bind, hgf]
  · exfalso
    obtain ⟨v, hv⟩ := getFeatures_ok_forall hgf k0 hk0
    have hidx : Json.index (Json.obj kvs) k0 = Except.error ("KeyError: " ++ k0) := by
      simp [Json.index, hlk]
    rw [hidx] at hv
    simp at hv

/-- Witness for C2 at the spec scenario with the `age` field removed. -/
theorem predict_missing_field_400_witness :
    ("age" ∈ FEATURE_KEYS ∧ lookupKey testKvsNoAge "age" = none)
    ∧ ∃ e, e ≠ "" ∧ predict testScaler testModel (Except.ok (Json.obj testKvsNoAge)) =
      ⟨400, Json.obj [("error", Json.str e)]⟩ := by
  have h1 : "age" ∈ FEATURE_KEYS := by simp [FEATURE_KEYS]
  have h2 : lookupKey testKvsNoAge "age" = none := rfl
  exact ⟨⟨h1, h2⟩, predict_missing_field_400 testScaler testModel h1 h2⟩

/-- Claim C3: every error raised inside the handler is caught at the single
top-level boundary and converted to `⟨400, {"error": <the error string>}⟩`,
and every response of the handler is a JSON body that is either the
structured success object or the error envelope — never anything else. -/
theorem predict_uniform_error_envelope (s : Scaler) (m : Model)
    (j : Except String Json) :
    (∀ e, predictCore s m j = Except.error e →
        predict s m j = ⟨400, Json.obj [("error", Json.str e)]⟩)
    ∧ ((∃ p b : ℚ, predict s m j =
          ⟨200, Json.obj [("prediction", Json.num p),
                          ("probability", Json.num b)]⟩)
       ∨ (∃ e, predict s m j = ⟨400, Json.obj [("error", Json.str e)]⟩)) := by
  constructor
  · intro e he
    simp [predict, he]
  · rcases hc : predictCore s m j with e | r
    · exact Or.inr ⟨e, by simp [predict, hc]⟩
    · left
      obtain ⟨p, b, rfl⟩ := predictCore_ok_shape hc
      exact ⟨p, b, by simp [predict, hc]⟩

/-- Witness for C3: a raised JSON-parse error is returned as the 400
envelope carrying its message. -/
theorem predict_uniform_error_envelope_witness :
    predict testScaler testModel (Except.error "Failed to decode JSON object") =
      ⟨400, Json.obj [("error", Json.str "Failed to decode JSON object")]⟩ :=
  (predict_uniform_error_envelope testScaler testModel
    (Except.error "Failed to decode JSON object")).1 _ rfl

/-- Claim C4: the handler extracts the twelve values by key, assembles them
into a one-row named record whose column names are exactly the twelve
feature names in their fixed order, and that record is the argument passed
to the scaler's transform: the response depends on the scaler only through
its value at that record. -/
theorem predict_dataframe_construction (s1 s2 : Scaler) (m : Model)
    {kvs : List (String × Json)} (f : String → Json)
    (hlook : ∀ k ∈ FEATURE_KEYS, lookupKey kvs k = some (f k))
    (hs : s1.transform ⟨cols, [FEATURE_KEYS.map f]⟩ =
          s2.transform ⟨cols, [FEATURE_KEYS.map f]⟩) :
    cols = FEATURE_KEYS
    ∧ cols = ["age", "anaemia", "creatinine_phosphokinase", "diabetes",
        "ejection_fraction", "high_blood_pressure", "platelets",
        "serum_creatinine", "serum_sodium", "sex", "smoking", "time"]
    ∧ getFeatures (Json.obj kvs) FEATURE_KEYS = Except.ok (FEATURE_KEYS.map f)
    ∧ predict s1 m (Except.ok (Json.obj kvs)) =
        predict s2 m (Except.ok (Json.obj kvs)) := by
  have hgf := getFeatures_ok_of_lookups FEATURE_KEYS hlook
  refine ⟨rfl, rfl, hgf, ?_⟩
  simp [predict, predictCore, bind, Except.bind, hgf]
  rw [hs]

/-- Witness for C4 at the concrete scenario. -/
theorem predict_dataframe_construction_witness :
    (∀ k ∈ FEATURE_KEYS, lookupKey testKvs k = some (Json.num (testVal k)))
    ∧ (cols = FEATURE_KEYS
      ∧ cols = ["age", "anaemia", "creatinine_phosphokinase", "diabetes",
          "ejection_fraction", "high_blood_pressure", "platelets",
          "serum_creatinine", "serum_sodium", "sex", "smoking", "time"]
      ∧ getFeatures (Json.obj testKvs) FEATURE_KEYS =
          Except.ok (FEATURE_KEYS.map (fun k => Json.num (testVal k)))
      ∧ predict testScaler testModel (Except.ok (Json.obj testKvs)) =
          predict testScaler testModel (Except.ok (Json.obj testKvs))) := by
  have hlook : ∀ k ∈ FEATURE_KEYS, lookupKey testKvs k = some (Json.num (testVal k)) := by
    intro k hk
    fin_cases hk <;> rfl
  exact ⟨hlook, predict_dataframe_construction testScaler testScaler testModel
    (fun k => Json.num (testVal k)) hlook rfl⟩

/-- Claim C5: for every successful request, the `probability` value equals
the class-1 probability of the first row of `predict_proba`, rounded to 4
decimal places, and the `prediction` value equals the first element of
`predict` converted to an integer. -/
theorem predict_positive_class_probability (s : Scaler) (m : Model)
    {kvs : List (String × Json)} (f : String → Json) {X : List (List ℚ)}
    {ps : List ℚ} {p : ℚ} {rows : List (List ℚ)} {row : List ℚ} {b : ℚ}
    (hlook : ∀ k ∈ FEATURE_KEYS, lookupKey kvs k = some (f k))
    (htr : s.transform ⟨cols, [FEATURE_KEYS.map f]⟩ = Except.ok X)
    (hpred : m.predict X = Except.ok ps)
    (hp : ps[0]? = some p)
    (hproba : m.predict_proba X = Except.ok rows)
    (hrow : rows[0]? = some row)
    (hb : row[1]? = some b) :
    predict s m (Except.ok (Json.obj kvs)) =
      ⟨200, Json.obj [("prediction", Json.num (pyInt p)),
                      ("probability", Json.num (round4 b))]⟩ :=
  predictCore_success s m f hlook htr hpred hp hproba hrow hb

/-- Witness for C5 at the concrete scenario. -/
theorem predict_positive_class_probability_witness :
    (∀ k ∈ FEATURE_KEYS, lookupKey testKvs k = some (Json.num (testVal k)))
    ∧ predict testScaler testModel (Except.ok (Json.obj testKvs)) =
        ⟨200, Json.obj [("prediction", Json.num (pyInt 1)),
                        ("probability", Json.num (round4 (1 / 2)))]⟩ := by
  have hlook : ∀ k ∈ FEATURE_KEYS, lookupKey testKvs k = some (Json.num (testVal k)) := by
    intro k hk
    fin_cases hk <;> rfl
  exact ⟨hlook, predict_positive_class_probability testScaler testModel
    (fun k => Json.num (testVal k)) hlook rfl rfl rfl rfl rfl rfl⟩

/-- Claim C6: every GET `/` request, regardless of query parameters or
request body, receives the fixed acknowledgement JSON with HTTP status 200;
the handler is a pure total function (no side effects, no failure modes). -/
theorem home_fixed_response (q : List (String × String)) (b : Option String) :
    home q b =
      ⟨200, Json.obj
        [("message", Json.str "Heart Disease Prediction API is running!")]⟩ :=
  rfl

/-- Claim C7: the POST `/predict` handler is deterministic — two requests
with the same payload (against the same immutable artifacts) receive
identical responses. -/
theorem predict_deterministic (s : Scaler) (m : Model)
    (j1 j2 : Except String Json) (h : j1 = j2) :
    predict s m j1 = predict s m j2 := by
  rw [h]

/-- Witness for C7 at the concrete scenario. -/
theorem predict_deterministic_witness :
    (Except.ok (Json.obj testKvs) : Except String Json) = Except.ok (Json.obj testKvs)
    ∧ predict testScaler testModel (Except.ok (Json.obj testKvs)) =
        predict testScaler testModel (Except.ok (Json.obj testKvs)) :=
  ⟨rfl, predict_deterministic testScaler testModel _ _ rfl⟩

/-- Claim C8: the result of POST `/predict` is independent of the order of
keys in the request JSON object: permuting the key-value list of an object
with pairwise-distinct keys does not change the response. -/
theorem predict_key_order_independent (s : Scaler) (m : Model)
    {kvs1 kvs2 : List (String × Json)} (hperm : kvs1.Perm kvs2)
    (hnd : (kvs1.map Prod.fst).Nodup) :
    predict s m (Except.ok (Json.obj kvs1)) =
      predict s m (Except.ok (Json.obj kvs2)) := by
  apply predict_ext_lookup
  intro k _
  exact lookupKey_perm hperm hnd k

/-- Witness for C8: swapping the first two fields of the concrete scenario
leaves the response unchanged. -/
theorem predict_key_order_independent_witness :
    (testKvs.Perm testKvsSwapped ∧ (testKvs.map Prod.fst).Nodup)
    ∧ predict testScaler testModel (Except.ok (Json.obj testKvs)) =
        predict testScaler testModel (Except.ok (Json.obj testKvsSwapped)) := by
  have hperm : testKvs.Perm testKvsSwapped := by
    unfold testKvs testKvsSwapped
    exact List.Perm.swap _ _ _
  have hnd : (testKvs.map Prod.fst).Nodup := by decide
  exact ⟨⟨hperm, hnd⟩, predict_key_order_independent testScaler testModel hperm hnd⟩

/-- Claim C9: extra keys in the request JSON are ignored: two object bodies
that agree on the lookups of the twelve required keys receive identical
responses, whatever other keys either of them contains. -/
theorem predict_extra_keys_ignored (s : Scaler) (m : Model)
    {kvs1 kvs2 : List (String × Json)}
    (h : ∀ k ∈ FEATURE_KEYS, lookupKey kvs1 k = lookupKey kvs2 k) :
    predict s m (Except.ok (Json.obj kvs1)) =
      predict s m (Except.ok (Json.obj kvs2)) :=
  predict_ext_lookup s m h

/-- Witness for C9: appending an unrelated key to the concrete scenario
leaves the response unchanged. -/
theorem predict_extra_keys_ignored_witness :
    (∀ k ∈ FEATURE_KEYS, lookupKey testKvs k = lookupKey testKvsExtra k)
    ∧ predict testScaler testModel (Except.ok (Json.obj testKvs)) =
        predict testScaler testModel (Except.ok (Json.obj testKvsExtra)) := by
  have h : ∀ k ∈ FEATURE_KEYS, lookupKey testKvs k = lookupKey testKvsExtra k := by
    intro k hk
    fin_cases hk <;> rfl
  exact ⟨h, predict_extra_keys_ignored testScaler testModel h⟩

/-- Claim C10: for every POST `/predict` request whose body is not a JSON
object — an array, number, string, boolean, null, or not parseable at all —
the handler does not propagate an exception: it returns the HTTP 400 JSON
error envelope like any other in-request failure. -/
theorem predict_non_object_body_400 (s : Scaler) (m : Model)
    (j : Except String Json) (h : ∀ kvs, j ≠ Except.ok (Json.obj kvs)) :
    ∃ e, predict s m j = ⟨400, Json.obj [("error", Json.str e)]⟩ := by
  rcases j with e | d
  · exact ⟨e, by simp [predict, predictCore, bind, Except.bind]⟩
  cases d with
  | obj kvs => exact absurd rfl (h kvs)
  | null =>
    exact ⟨"TypeError: NoneType object is not subscriptable",
      by simp [predict, predictCore, bind, Except.bind, FEATURE_KEYS,
        getFeatures, Json.index]⟩
  | bool b0 =>
    exact ⟨"TypeError: bool object is not subscriptable",
      by simp [predict, predictCore, bind, Except.bind, FEATURE_KEYS,
        getFeatures, Json.index]⟩
  | num q0 =>
    exact ⟨"TypeError: number object is not subscriptable",
      by simp [predict, predictCore, bind, Except.bind, FEATURE_KEYS,
        getFeatures, Json.index]⟩
  | str s0 =>
    exact ⟨"TypeError: string indices must be integers",
      by simp [predict, predictCore, bind, Except.bind, FEATURE_KEYS,
        getFeatures, Json.index]⟩
  | arr xs =>
    exact ⟨"TypeError: list indices must be integers",
      by simp [predict, predictCore, bind, Except.bind, FEATURE_KEYS,
        getFeatures, Json.index]⟩

/-- Witness for C10: a JSON array body receives the 400 error envelope. -/
theorem predict_non_object_body_400_witness :
    (∀ kvs, (Except.ok (Json.arr []) : Except String Json) ≠ Except.ok (Json.obj kvs))
    ∧ ∃ e, predict testScaler testModel (Except.ok (Json.arr [])) =
        ⟨400, Json.obj [("error", Json.str e)]⟩ := by
  have h : ∀ kvs, (Except.ok (Json.arr []) : Except String Json) ≠ Except.ok (Json.obj kvs) := by
    intro kvs hc
    exact Json.noConfusion (Except.ok.inj hc)
  exact ⟨h, predict_non_object_body_400 testScaler testModel _ h⟩

end CardioBackend
